import Mathlib

/-
Verification of the Student Learning Companion orchestration flow.

The development is a shallow embedding of the TypeScript of the repository
source.  The React component state (one `useReducer` store plus two
`useState` cells) becomes an explicit record threaded through the
handler functions.  Each external generative-model call is modelled by
passing its outcome in as data: a `ModelResponse` at the gateway layer
(the raw service reply), and an `Except GatewayError τ` at the
orchestrator layer (the awaited, cast result).  JavaScript `Date.now()`
and the random id helper `genId` are modelled by a deterministic
counter threaded through the flow; no claim depends on their values.
-/

set_option linter.all false

namespace SLC

/-- Agent identifiers, from the `AgentType` enum of the types module. -/
inductive AgentType where
  | assessment
  | adaptation
  | curator
  | language
  | safety
  | system
  deriving DecidableEq, Repr

/-- Status tag of a trace log entry (`AgentLog.status`). -/
inductive LogStatus where
  | pending
  | success
  | warning
  | error
  deriving DecidableEq, Repr

/-- Trace log entry, from the `AgentLog` interface. -/
structure AgentLog where
  id : String
  timestamp : Nat
  agent : AgentType
  action : String
  details : String
  status : LogStatus
  deriving DecidableEq, Repr

/-- Difficulty tag of a quiz question. -/
inductive Difficulty where
  | easy
  | medium
  | hard
  deriving DecidableEq, Repr

/-- Quiz question artifact, from the `QuizQuestion` interface. -/
structure QuizQuestion where
  id : String
  questionText : String
  options : List String
  correctOptionIndex : Nat
  explanation : String
  difficulty : Difficulty
  topic : String
  deriving DecidableEq, Repr

/-- Language mode tag of a learning material. -/
inductive LanguageMode where
  | english
  | urdu_mix
  deriving DecidableEq, Repr

/-- Learning material artifact, from the `LearningMaterial` interface. -/
structure LearningMaterial where
  title : String
  content : String
  readingLevel : String
  sourceAttribution : String
  languageMode : LanguageMode
  deriving DecidableEq, Repr

/-- Tag of a history entry: quiz attempt or content exposure. -/
inductive HistoryType where
  | quiz
  | content
  deriving DecidableEq, Repr

/-- Payload of a history entry (`data` is a `QuizQuestion | LearningMaterial` union). -/
inductive HistoryData where
  | quizData (q : QuizQuestion)
  | contentData (m : LearningMaterial)
  deriving DecidableEq, Repr

/-- One entry of `LearningSession.history`.  The source never sets
`userResponse`, so it is `Option Nat`; `isCorrect` is optional too. -/
structure HistoryEntry where
  type : HistoryType
  data : HistoryData
  userResponse : Option Nat
  isCorrect : Option Bool
  timestamp : Nat
  deriving DecidableEq, Repr

/-- Session record, from the `LearningSession` interface.  The mastery
score is a JavaScript number that stays integral in this flow, so it is
embedded as `Int`. -/
structure LearningSession where
  topic : String
  courseName : String
  gradeLevel : String
  masteryScore : Int
  history : List HistoryEntry
  deriving DecidableEq, Repr

/-- UI step flag of the reducer state. -/
inductive Step where
  | idle
  | assessing
  | learning
  | summary
  deriving DecidableEq, Repr

/-- Reducer state, from the `AppState` interface. -/
structure AppState where
  isOfflineMode : Bool
  isLowBandwidth : Bool
  currentStep : Step
  logs : List AgentLog
  session : Option LearningSession
  isLoading : Bool
  deriving DecidableEq, Repr

/-- Reducer actions, from the `Action` union type of the app module. -/
inductive Action where
  | ADD_LOG (payload : AgentLog)
  | START_SESSION (topic : String) (grade : String) (courseName : String)
  | SET_LOADING (payload : Bool)
  | SET_CURRENT_QUESTION (payload : QuizQuestion)
  | SET_CURRENT_CONTENT (payload : LearningMaterial)
  | RECORD_ANSWER (question : QuizQuestion) (isCorrect : Bool)
  | TOGGLE_BANDWIDTH
  | TOGGLE_OFFLINE_MODE
  deriving DecidableEq, Repr

/-- Initial reducer state (`initialState` in the app module). -/
def initialState : AppState :=
  ⟨false, false, Step.idle, [], none, false⟩

/-- Reducer `appReducer` of the app module, translated case by case.
`now` stands for the `Date.now()` read in the `RECORD_ANSWER` branch. -/
def appReducer (state : AppState) (action : Action) (now : Nat) : AppState :=
  match action with
  | Action.ADD_LOG payload =>
      { state with logs := state.logs ++ [payload] }
  | Action.START_SESSION topic grade courseName =>
      { state with
          currentStep := Step.assessing
          session := some ⟨topic, courseName, grade, 0, []⟩
          logs := [] }
  | Action.SET_LOADING payload =>
      { state with isLoading := payload }
  | Action.SET_CURRENT_QUESTION _ =>
      { state with currentStep := Step.assessing, isLoading := false }
  | Action.SET_CURRENT_CONTENT _ =>
      { state with currentStep := Step.learning, isLoading := false }
  | Action.RECORD_ANSWER question isCorrect =>
      match state.session with
      | none => state
      | some session =>
          let newMastery : Int :=
            if isCorrect then min 100 (session.masteryScore + 20)
            else max 0 (session.masteryScore - 10)
          { state with
              session := some
                { session with
                    masteryScore := newMastery
                    history := session.history ++
                      [⟨HistoryType.quiz, HistoryData.quizData question,
                        none, some isCorrect, now⟩] } }
  | Action.TOGGLE_BANDWIDTH =>
      { state with isLowBandwidth := !state.isLowBandwidth }
  | Action.TOGGLE_OFFLINE_MODE =>
      { state with isOfflineMode := !state.isOfflineMode }

/-- JSON values, used to model what `JSON.parse` yields on a service
reply before the source casts it to its expected interface. -/
inductive Json where
  | null
  | bool (b : Bool)
  | num (n : Int)
  | str (s : String)
  | arr (elems : List Json)
  | obj (fields : List (String × Json))

/-- Errors thrown at the gateway boundary.  `EmptyResponse` models the
explicit `throw new Error("No response from ...")` on falsy text,
`ParseException` the exception raised by `JSON.parse` on unparseable
text, `TransportFailure` a rejection of the underlying service call. -/
inductive GatewayError where
  | EmptyResponse
  | ParseException
  | TransportFailure
  deriving DecidableEq, Repr

/-- Outcome of one raw call to the generative-content service, as the
gateway functions observe it: the call itself may reject, or resolve
with falsy text, text that is not JSON, or text that parses to `j`. -/
inductive ModelResponse where
  | transportFailure
  | noText
  | unparseable
  | parsed (j : Json)

/-- Difficulty derivation performed inside `generateAssessment`
(geminiService line 32):
`previousMastery > 70 ? hard : previousMastery > 40 ? medium : easy`. -/
def assessmentDifficulty (previousMastery : Int) : Difficulty :=
  if previousMastery > 70 then Difficulty.hard
  else if previousMastery > 40 then Difficulty.medium
  else Difficulty.easy

/-- Gateway operation `generateAssessment`.  The source throws on falsy
text and otherwise returns `JSON.parse(text) as QuizQuestion` — a cast
with no shape validation, so any parsed value is returned as is. -/
def generateAssessment (topic : String) (grade : String)
    (previousMastery : Int) (courseContext : Option String)
    (r : ModelResponse) : Except GatewayError Json :=
  match r with
  | ModelResponse.transportFailure => Except.error GatewayError.TransportFailure
  | ModelResponse.noText => Except.error GatewayError.EmptyResponse
  | ModelResponse.unparseable => Except.error GatewayError.ParseException
  | ModelResponse.parsed j => Except.ok j

/-- Gateway operation `adaptPath`: throws on falsy text, otherwise
returns `JSON.parse(text)` unvalidated. -/
def adaptPath (isCorrect : Bool) (currentMastery : Int) (topic : String)
    (r : ModelResponse) : Except GatewayError Json :=
  match r with
  | ModelResponse.transportFailure => Except.error GatewayError.TransportFailure
  | ModelResponse.noText => Except.error GatewayError.EmptyResponse
  | ModelResponse.unparseable => Except.error GatewayError.ParseException
  | ModelResponse.parsed j => Except.ok j

/-- Gateway operation `curateContent`: same raw behaviour. -/
def curateContent (topic : String) (grade : String) (focusArea : String)
    (courseContext : Option String) (r : ModelResponse) :
    Except GatewayError Json :=
  match r with
  | ModelResponse.transportFailure => Except.error GatewayError.TransportFailure
  | ModelResponse.noText => Except.error GatewayError.EmptyResponse
  | ModelResponse.unparseable => Except.error GatewayError.ParseException
  | ModelResponse.parsed j => Except.ok j

/-- Gateway operation `bridgeLanguage`: same raw behaviour. -/
def bridgeLanguage (material : LearningMaterial)
    (targetLanguage : LanguageMode) (r : ModelResponse) :
    Except GatewayError Json :=
  match r with
  | ModelResponse.transportFailure => Except.error GatewayError.TransportFailure
  | ModelResponse.noText => Except.error GatewayError.EmptyResponse
  | ModelResponse.unparseable => Except.error GatewayError.ParseException
  | ModelResponse.parsed j => Except.ok j

/-- Gateway operation `safetyCheck`: on falsy text it returns the
literal object with `safe` set to `true` instead of throwing; otherwise
it returns `JSON.parse(text)` unvalidated. -/
def safetyCheck (content : String) (r : ModelResponse) :
    Except GatewayError Json :=
  match r with
  | ModelResponse.transportFailure => Except.error GatewayError.TransportFailure
  | ModelResponse.noText => Except.ok (Json.obj [("safe", Json.bool true)])
  | ModelResponse.unparseable => Except.error GatewayError.ParseException
  | ModelResponse.parsed j => Except.ok j

/-- Field lookup in a JSON object field list. -/
def jlookup (fields : List (String × Json)) (key : String) : Option Json :=
  match fields with
  | [] => none
  | (k, v) :: rest => if k = key then some v else jlookup rest key

/-- Tests whether a JSON value is a string. -/
def isJStr (j : Option Json) : Bool :=
  match j with
  | some (Json.str _) => true
  | _ => false

/-- Modelled from the spec: the required output shape of
`generateQuestion` — every required field present with its declared
type, exactly four string options, and a correct-option index inside
the range of the options.  The source itself performs no such check. -/
def quizShapeValid (j : Json) : Bool :=
  match j with
  | Json.obj fields =>
      isJStr (jlookup fields "questionText") &&
      (match jlookup fields "options" with
       | some (Json.arr elems) =>
           elems.length == 4 && elems.all (fun e =>
             match e with
             | Json.str _ => true
             | _ => false)
       | _ => false) &&
      (match jlookup fields "correctOptionIndex", jlookup fields "options" with
       | some (Json.num n), some (Json.arr elems) =>
           0 ≤ n && n < (elems.length : Int)
       | _, _ => false) &&
      isJStr (jlookup fields "explanation") &&
      (match jlookup fields "difficulty" with
       | some (Json.str s) => s == "easy" || s == "medium" || s == "hard"
       | _ => false) &&
      isJStr (jlookup fields "topic")
  | _ => false

/-- Modelled from the spec: a parseable adaptation-decision reply must
carry a `nextAction` field; the source never checks this. -/
def hasNextAction (j : Json) : Bool :=
  match j with
  | Json.obj fields =>
      match jlookup fields "nextAction" with
      | some _ => true
      | none => false
  | _ => false

/-- Next-step decision at the orchestrator layer.  The source checks
whether `plan.nextAction` equals the quiz tag; any other value (including a missing
field on an unvalidated reply) takes the content branch, so `content`
models every non-quiz outcome. -/
inductive NextAction where
  | quiz
  | content
  deriving DecidableEq, Repr

/-- Typed adaptation plan as the orchestrator consumes it. -/
structure AdaptPlan where
  nextAction : NextAction
  reasoning : String
  suggestedFocus : String
  deriving DecidableEq, Repr

/-- Typed safety verdict as the orchestrator consumes it. -/
structure SafetyVerdict where
  safe : Bool
  reason : Option String
  deriving DecidableEq, Repr

/-- Record of one gateway request issued by the flow, carrying the
arguments the orchestrator passed to the external call. -/
inductive GatewayCall where
  | genQuiz (topic : String) (grade : String) (previousMastery : Int)
      (courseContext : Option String)
  | adapt (isCorrect : Bool) (currentMastery : Int) (topic : String)
  | curate (topic : String) (grade : String) (focusArea : String)
      (courseContext : Option String)
  | safety (content : String)
  | localize (material : LearningMaterial) (targetLanguage : LanguageMode)
  deriving DecidableEq, Repr

/-- Combined component state: the reducer store plus the two `useState`
cells `currentQuestion` and `currentContent`. -/
structure UIState where
  appState : AppState
  currentQuestion : Option QuizQuestion
  currentContent : Option LearningMaterial
  deriving DecidableEq, Repr

/-- Initial component state: initial store, both cells null. -/
def initialUI : UIState :=
  ⟨initialState, none, none⟩

/-- Result of running one handler: the final component state, the list
of gateway requests issued (in call order), and the id/clock counter. -/
structure FlowResult where
  ui : UIState
  calls : List GatewayCall
  counter : Nat
  deriving Repr

/-- Logging helper `logAgent`: dispatches one `ADD_LOG` whose status is
always `success`.  The random id and `Date.now()` timestamp are drawn
from the counter `n`. -/
def logAgent (agent : AgentType) (action : String) (details : String)
    (st : AppState) (n : Nat) : AppState × Nat :=
  (appReducer st
      (Action.ADD_LOG ⟨toString n, n, agent, action, details, LogStatus.success⟩) n,
    n + 1)

/-- JavaScript truthiness choice `s || d` on an optional string: the
default is taken when the value is absent or the empty string. -/
def jsOr (s : Option String) (d : String) : String :=
  match s with
  | none => d
  | some v => if v = "" then d else v

/-- Assessment cycle `runAssessmentCycle`: sets the loading flag, logs,
issues `generateAssessment`, and on success stores the question (the
content cell is not touched); on any failure logs one `System`/`Error`
entry and clears the loading flag.  `quizResult` is the awaited, cast
outcome of the external call. -/
def runAssessmentCycle (topic : String) (grade : String) (mastery : Int)
    (courseContext : Option String)
    (quizResult : Except GatewayError QuizQuestion)
    (ui : UIState) (n : Nat) : FlowResult :=
  let st := appReducer ui.appState (Action.SET_LOADING true) n
  let p := logAgent AgentType.assessment "Generating Quiz"
      ("Aligning with " ++ jsOr courseContext "" ++ "...") st n
  let call := GatewayCall.genQuiz topic grade mastery courseContext
  match quizResult with
  | Except.ok quiz =>
      let p2 := logAgent AgentType.assessment "Quiz Ready"
          ("Question ready - Difficulty tag attached") p.1 p.2
      let st2 := appReducer p2.1 (Action.SET_CURRENT_QUESTION quiz) p2.2
      ⟨⟨st2, some quiz, ui.currentContent⟩, [call], p2.2⟩
  | Except.error _ =>
      let p2 := logAgent AgentType.system "Error"
          "Failed to generate assessment." p.1 p.2
      let st2 := appReducer p2.1 (Action.SET_LOADING false) p2.2
      ⟨⟨st2, ui.currentQuestion, ui.currentContent⟩, [call], p2.2⟩

/-- Content cycle `runContentCycle`: curate, safety-check, localize, in
strict order; an unsafe verdict only logs a `Blocked` entry and the
flow proceeds; any failure clears the loading flag and aborts with no
further dispatch.  Each `Except` argument is the awaited outcome of
the corresponding external call. -/
def runContentCycle (topic : String) (grade : String) (focus : String)
    (courseContext : String)
    (curateResult : Except GatewayError LearningMaterial)
    (safetyResult : Except GatewayError SafetyVerdict)
    (localizeResult : Except GatewayError LearningMaterial)
    (ui : UIState) (n : Nat) : FlowResult :=
  let p := logAgent AgentType.curator "Sourcing Content"
      ("Searching " ++ courseContext ++ " for " ++ focus ++ "...") ui.appState n
  let curCall := GatewayCall.curate topic grade focus (some courseContext)
  match curateResult with
  | Except.error _ =>
      let st2 := appReducer p.1 (Action.SET_LOADING false) p.2
      ⟨⟨st2, ui.currentQuestion, ui.currentContent⟩, [curCall], p.2⟩
  | Except.ok rawContent =>
      let p2 := logAgent AgentType.curator "Content Found"
          ("Retrieved passage: " ++ rawContent.title) p.1 p.2
      let p3 := logAgent AgentType.safety "Filtering"
          "Checking content safety and relevance..." p2.1 p2.2
      let safCall := GatewayCall.safety rawContent.content
      match safetyResult with
      | Except.error _ =>
          let st2 := appReducer p3.1 (Action.SET_LOADING false) p3.2
          ⟨⟨st2, ui.currentQuestion, ui.currentContent⟩, [curCall, safCall], p3.2⟩
      | Except.ok safety =>
          let p4 :=
            if !safety.safe then
              logAgent AgentType.safety "Blocked"
                ("Content flagged: " ++ jsOr safety.reason "undefined" ++
                  ". Rerouting...") p3.1 p3.2
            else
              logAgent AgentType.safety "Verified" "Content is safe." p3.1 p3.2
          let p5 := logAgent AgentType.language "Localizing"
              "Translating to Roman Urdu/English mix for better comprehension..."
              p4.1 p4.2
          let locCall := GatewayCall.localize rawContent LanguageMode.urdu_mix
          match localizeResult with
          | Except.error _ =>
              let st2 := appReducer p5.1 (Action.SET_LOADING false) p5.2
              ⟨⟨st2, ui.currentQuestion, ui.currentContent⟩,
                [curCall, safCall, locCall], p5.2⟩
          | Except.ok localizedContent =>
              let p6 := logAgent AgentType.language "Ready"
                  "Content localized and formatted." p5.1 p5.2
              let st2 := appReducer p6.1
                  (Action.SET_CURRENT_CONTENT localizedContent) p6.2
              ⟨⟨st2, ui.currentQuestion, some localizedContent⟩,
                [curCall, safCall, locCall], p6.2⟩

/-- Adaptation cycle `runAdaptationCycle`: sets the loading flag,
clears the question cell, logs, issues `adaptPath`, and branches on the
decision; its catch block only clears the loading flag (it logs no
error entry).  `snapshot` is the render-time reducer state captured by
the closure of the handler, read where the source reads `state.`. -/
def runAdaptationCycle (lastCorrect : Bool) (mastery : Int) (topic : String)
    (courseContext : String) (snapshot : AppState)
    (adaptResult : Except GatewayError AdaptPlan)
    (quizResult : Except GatewayError QuizQuestion)
    (curateResult : Except GatewayError LearningMaterial)
    (safetyResult : Except GatewayError SafetyVerdict)
    (localizeResult : Except GatewayError LearningMaterial)
    (ui : UIState) (n : Nat) : FlowResult :=
  let st := appReducer ui.appState (Action.SET_LOADING true) n
  let p := logAgent AgentType.adaptation "Analyzing Path"
      "Analyzing result. Deciding next step..." st n
  let ui2 : UIState := ⟨p.1, none, ui.currentContent⟩
  let call := GatewayCall.adapt lastCorrect mastery topic
  match adaptResult with
  | Except.ok plan =>
      let p2 := logAgent AgentType.adaptation "Path Updated"
          ("Decision made. Reason: " ++ plan.reasoning) ui2.appState p.2
      let ui3 : UIState := ⟨p2.1, ui2.currentQuestion, ui2.currentContent⟩
      let grade := jsOr (snapshot.session.map (fun s => s.gradeLevel)) "9"
      match plan.nextAction with
      | NextAction.quiz =>
          let r := runAssessmentCycle topic grade mastery (some courseContext)
              quizResult ui3 p2.2
          ⟨r.ui, call :: r.calls, r.counter⟩
      | NextAction.content =>
          let r := runContentCycle topic grade plan.suggestedFocus courseContext
              curateResult safetyResult localizeResult ui3 p2.2
          ⟨r.ui, call :: r.calls, r.counter⟩
  | Except.error _ =>
      let st2 := appReducer ui2.appState (Action.SET_LOADING false) p.2
      ⟨⟨st2, ui2.currentQuestion, ui2.currentContent⟩, [call], p.2⟩

/-- Answer handler `handleAnswer`.  It returns unchanged when there is
no current question or no session.  It computes correctness, logs the
input, dispatches `RECORD_ANSWER`, then runs the adaptation cycle with
the mastery read from the render snapshot: `dispatch` does not update
the closure-captured `state`, so the value passed on is the
pre-dispatch `state.session.masteryScore`. -/
def handleAnswer (index : Nat)
    (adaptResult : Except GatewayError AdaptPlan)
    (quizResult : Except GatewayError QuizQuestion)
    (curateResult : Except GatewayError LearningMaterial)
    (safetyResult : Except GatewayError SafetyVerdict)
    (localizeResult : Except GatewayError LearningMaterial)
    (ui : UIState) (n : Nat) : FlowResult :=
  match ui.currentQuestion, ui.appState.session with
  | some currentQuestion, some session =>
      let isCorrect := index == currentQuestion.correctOptionIndex
      let p := logAgent AgentType.system "User Input"
          ("Student selected option " ++ toString index ++ ". Correct: " ++
            toString isCorrect) ui.appState n
      let st := appReducer p.1
          (Action.RECORD_ANSWER currentQuestion isCorrect) p.2
      runAdaptationCycle isCorrect session.masteryScore currentQuestion.topic
        session.courseName ui.appState
        adaptResult quizResult curateResult safetyResult localizeResult
        ⟨st, ui.currentQuestion, ui.currentContent⟩ p.2
  | _, _ => ⟨ui, [], n⟩

/-- Session-start handler `handleStart`, modelled from after its input
guard and grade extraction: `grade` and `fullContext` are the values
the source computes at lines 176-183 from the selected course (a regex
match with default "9" and a source-course concatenation); no claim
depends on that derivation.  Dispatches `START_SESSION`, logs, then
runs the assessment cycle at mastery 0. -/
def handleStart (topicInput : String) (grade : String) (fullContext : String)
    (quizResult : Except GatewayError QuizQuestion)
    (ui : UIState) (n : Nat) : FlowResult :=
  let st := appReducer ui.appState
      (Action.START_SESSION topicInput grade fullContext) n
  let p := logAgent AgentType.system "Initialization"
      ("Session started: " ++ fullContext ++ " - " ++ topicInput) st n
  runAssessmentCycle topicInput grade 0 (some fullContext) quizResult
    ⟨p.1, ui.currentQuestion, ui.currentContent⟩ p.2

/-- Continue handler `handleContentNext`: clears the content cell, then
re-runs the assessment cycle at the current mastery of the session. -/
def handleContentNext (quizResult : Except GatewayError QuizQuestion)
    (ui : UIState) (n : Nat) : FlowResult :=
  let ui2 : UIState := ⟨ui.appState, ui.currentQuestion, none⟩
  match ui2.appState.session with
  | some session =>
      runAssessmentCycle session.topic session.gradeLevel session.masteryScore
        (some session.courseName) quizResult ui2 n
  | none => ⟨ui2, [], n⟩

/-- Export artifact shape built by `downloadPack`. -/
structure PackData where
  timestamp : String
  course : String
  studentLevel : String
  topic : String
  materials : List HistoryData
  reviewQuizzes : List HistoryData
  logs : List AgentLog
  deriving Repr

/-- Export builder `downloadPack`: returns nothing without a session;
otherwise the `materials` of the pack are the data of the history entries of
type `content`, its `reviewQuizzes` the data of those of type `quiz`,
plus the full trace log.  `nowIso` stands for the ISO timestamp; the
browser blob download and the trailing export log entry are I/O outside
the artifact itself. -/
def downloadPack (state : AppState) (nowIso : String) : Option PackData :=
  match state.session with
  | none => none
  | some session =>
      some ⟨nowIso, session.courseName, session.gradeLevel, session.topic,
        (session.history.filter
          (fun h => h.type == HistoryType.content)).map (fun h => h.data),
        (session.history.filter
          (fun h => h.type == HistoryType.quiz)).map (fun h => h.data),
        state.logs⟩

/-- Spec invariant shape: exactly one of the question cell and the
content cell is non-null. -/
def exactlyOneActive (ui : UIState) : Bool :=
  (ui.currentQuestion.isSome && ui.currentContent.isNone) ||
  (ui.currentQuestion.isNone && ui.currentContent.isSome)

/-- Tests whether a trace entry is a System entry with action Error. -/
def isSystemError (l : AgentLog) : Bool :=
  l.agent == AgentType.system && l.action == "Error"

/-- Number of System/Error entries in a trace log. -/
def systemErrorCount (logs : List AgentLog) : Nat :=
  (logs.filter isSystemError).length

/-- Tests whether a trace entry carries warning status. -/
def isWarningLog (l : AgentLog) : Bool :=
  l.status == LogStatus.warning

/-- Tests for the Safety/Blocked entry with success status. -/
def isBlockedSuccess (l : AgentLog) : Bool :=
  l.agent == AgentType.safety && l.action == "Blocked" &&
  l.status == LogStatus.success

/-- Sample quiz question used in concrete runs. -/
def sampleQuiz (i : Nat) (correct : Nat) : QuizQuestion :=
  ⟨toString i, "What is X", ["a", "b", "c", "d"], correct, "because",
    Difficulty.easy, "Algebra"⟩

/-- Sample learning material used in concrete runs. -/
def sampleMaterial (t : String) : LearningMaterial :=
  ⟨t, "body text", "Grade 9", "PCTB", LanguageMode.english⟩

theorem runAssessmentCycle_ok_question (topic grade : String) (mastery : Int)
    (c : Option String) (q : QuizQuestion) (ui : UIState) (n : Nat) :
    (runAssessmentCycle topic grade mastery c (Except.ok q) ui n).ui.currentQuestion
      = some q := rfl

theorem runAssessmentCycle_ok_content (topic grade : String) (mastery : Int)
    (c : Option String) (q : QuizQuestion) (ui : UIState) (n : Nat) :
    (runAssessmentCycle topic grade mastery c (Except.ok q) ui n).ui.currentContent
      = ui.currentContent := rfl

theorem runAssessmentCycle_ok_session (topic grade : String) (mastery : Int)
    (c : Option String) (q : QuizQuestion) (ui : UIState) (n : Nat) :
    (runAssessmentCycle topic grade mastery c (Except.ok q) ui n).ui.appState.session
      = ui.appState.session := by
  simp [runAssessmentCycle, logAgent, appReducer]

theorem runAssessmentCycle_error_session (topic grade : String) (mastery : Int)
    (c : Option String) (e : GatewayError) (ui : UIState) (n : Nat) :
    (runAssessmentCycle topic grade mastery c (Except.error e) ui n).ui.appState.session
      = ui.appState.session := by
  simp [runAssessmentCycle, logAgent, appReducer]

theorem runAssessmentCycle_error_loading (topic grade : String) (mastery : Int)
    (c : Option String) (e : GatewayError) (ui : UIState) (n : Nat) :
    (runAssessmentCycle topic grade mastery c (Except.error e) ui n).ui.appState.isLoading
      = false := by
  simp [runAssessmentCycle, logAgent, appReducer]

theorem runAssessmentCycle_error_errorCount (topic grade : String) (mastery : Int)
    (c : Option String) (e : GatewayError) (ui : UIState) (n : Nat) :
    systemErrorCount
        (runAssessmentCycle topic grade mastery c (Except.error e) ui n).ui.appState.logs
      = systemErrorCount ui.appState.logs + 1 := by
  simp [runAssessmentCycle, logAgent, appReducer, systemErrorCount, isSystemError,
    List.filter_append]

theorem runContentCycle_success_question (topic grade focus ctx : String)
    (raw : LearningMaterial) (v : SafetyVerdict) (loc : LearningMaterial)
    (ui : UIState) (n : Nat) :
    (runContentCycle topic grade focus ctx (Except.ok raw) (Except.ok v)
        (Except.ok loc) ui n).ui.currentQuestion = ui.currentQuestion := by
  simp only [runContentCycle]

theorem runContentCycle_success_content (topic grade focus ctx : String)
    (raw : LearningMaterial) (v : SafetyVerdict) (loc : LearningMaterial)
    (ui : UIState) (n : Nat) :
    (runContentCycle topic grade focus ctx (Except.ok raw) (Except.ok v)
        (Except.ok loc) ui n).ui.currentContent = some loc := by
  simp only [runContentCycle]

theorem runContentCycle_session (topic grade focus ctx : String)
    (cr : Except GatewayError LearningMaterial)
    (sr : Except GatewayError SafetyVerdict)
    (lr : Except GatewayError LearningMaterial)
    (ui : UIState) (n : Nat) :
    (runContentCycle topic grade focus ctx cr sr lr ui n).ui.appState.session
      = ui.appState.session := by
  cases cr with
  | error e => simp [runContentCycle, logAgent, appReducer]
  | ok raw =>
      cases sr with
      | error e => simp [runContentCycle, logAgent, appReducer]
      | ok v =>
          cases lr with
          | error e =>
              by_cases hs : v.safe <;>
                simp [runContentCycle, logAgent, appReducer, hs]
          | ok loc =>
              by_cases hs : v.safe <;>
                simp [runContentCycle, logAgent, appReducer, hs]

theorem runAdaptationCycle_session (lastCorrect : Bool) (mastery : Int)
    (topic ctx : String) (snapshot : AppState)
    (ar : Except GatewayError AdaptPlan)
    (qr : Except GatewayError QuizQuestion)
    (cr : Except GatewayError LearningMaterial)
    (sr : Except GatewayError SafetyVerdict)
    (lr : Except GatewayError LearningMaterial)
    (ui : UIState) (n : Nat) :
    (runAdaptationCycle lastCorrect mastery topic ctx snapshot
        ar qr cr sr lr ui n).ui.appState.session = ui.appState.session := by
  cases ar with
  | error e => simp [runAdaptationCycle, logAgent, appReducer]
  | ok plan =>
      cases hplan : plan.nextAction with
      | quiz =>
          cases qr with
          | ok q =>
              simp [runAdaptationCycle, hplan, runAssessmentCycle_ok_session,
                logAgent, appReducer]
          | error e =>
              simp [runAdaptationCycle, hplan, runAssessmentCycle_error_session,
                logAgent, appReducer]
      | content =>
          simp [runAdaptationCycle, hplan, runContentCycle_session,
            logAgent, appReducer]

theorem runAdaptationCycle_quiz_question (lastCorrect : Bool) (mastery : Int)
    (topic ctx : String) (snapshot : AppState) (reasoning focus : String)
    (q2 : QuizQuestion)
    (cr : Except GatewayError LearningMaterial)
    (sr : Except GatewayError SafetyVerdict)
    (lr : Except GatewayError LearningMaterial)
    (ui : UIState) (n : Nat) :
    (runAdaptationCycle lastCorrect mastery topic ctx snapshot
        (Except.ok ⟨NextAction.quiz, reasoning, focus⟩) (Except.ok q2)
        cr sr lr ui n).ui.currentQuestion = some q2 := by
  simp [runAdaptationCycle, runAssessmentCycle_ok_question]

theorem runAdaptationCycle_quiz_content (lastCorrect : Bool) (mastery : Int)
    (topic ctx : String) (snapshot : AppState) (reasoning focus : String)
    (q2 : QuizQuestion)
    (cr : Except GatewayError LearningMaterial)
    (sr : Except GatewayError SafetyVerdict)
    (lr : Except GatewayError LearningMaterial)
    (ui : UIState) (n : Nat) :
    (runAdaptationCycle lastCorrect mastery topic ctx snapshot
        (Except.ok ⟨NextAction.quiz, reasoning, focus⟩) (Except.ok q2)
        cr sr lr ui n).ui.currentContent = ui.currentContent := by
  simp [runAdaptationCycle, runAssessmentCycle_ok_content]

theorem runAdaptationCycle_content_question (lastCorrect : Bool) (mastery : Int)
    (topic ctx : String) (snapshot : AppState) (reasoning focus : String)
    (qr : Except GatewayError QuizQuestion)
    (raw : LearningMaterial) (v : SafetyVerdict) (loc : LearningMaterial)
    (ui : UIState) (n : Nat) :
    (runAdaptationCycle lastCorrect mastery topic ctx snapshot
        (Except.ok ⟨NextAction.content, reasoning, focus⟩) qr
        (Except.ok raw) (Except.ok v) (Except.ok loc) ui n).ui.currentQuestion
      = none := by
  simp [runAdaptationCycle, runContentCycle_success_question]

theorem runAdaptationCycle_content_content (lastCorrect : Bool) (mastery : Int)
    (topic ctx : String) (snapshot : AppState) (reasoning focus : String)
    (qr : Except GatewayError QuizQuestion)
    (raw : LearningMaterial) (v : SafetyVerdict) (loc : LearningMaterial)
    (ui : UIState) (n : Nat) :
    (runAdaptationCycle lastCorrect mastery topic ctx snapshot
        (Except.ok ⟨NextAction.content, reasoning, focus⟩) qr
        (Except.ok raw) (Except.ok v) (Except.ok loc) ui n).ui.currentContent
      = some loc := by
  simp [runAdaptationCycle, runContentCycle_success_content]

theorem appReducer_recordAnswer_isSome (st : AppState) (q : QuizQuestion)
    (b : Bool) (now : Nat) :
    (appReducer st (Action.RECORD_ANSWER q b) now).session.isSome
      = st.session.isSome := by
  cases h : st.session <;> simp [appReducer, h]

theorem logAgent_session (a : AgentType) (act d : String) (st : AppState)
    (n : Nat) : (logAgent a act d st n).1.session = st.session := rfl

/-- Component states produced by a completed (fully successful)
transition of the orchestrator, starting from the initial state: a
completed session start, a completed answer whose adaptation decision
was quiz or content, or a completed continue-from-content.  Each
constructor fixes the gateway outcomes its path consumes to successes;
outcomes a path never awaits stay arbitrary. -/
inductive CompletedReachable : UIState → Prop where
  | start (topic grade ctx : String) (q : QuizQuestion) (n : Nat) :
      CompletedReachable (handleStart topic grade ctx (Except.ok q) initialUI n).ui
  | answerQuiz (index : Nat) (reasoning focus : String) (q2 : QuizQuestion)
      (cr : Except GatewayError LearningMaterial)
      (sr : Except GatewayError SafetyVerdict)
      (lr : Except GatewayError LearningMaterial)
      (ui : UIState) (n : Nat) :
      CompletedReachable ui →
      CompletedReachable (handleAnswer index
        (Except.ok ⟨NextAction.quiz, reasoning, focus⟩) (Except.ok q2)
        cr sr lr ui n).ui
  | answerContent (index : Nat) (reasoning focus : String)
      (qr : Except GatewayError QuizQuestion)
      (raw : LearningMaterial) (v : SafetyVerdict) (loc : LearningMaterial)
      (ui : UIState) (n : Nat) :
      CompletedReachable ui →
      CompletedReachable (handleAnswer index
        (Except.ok ⟨NextAction.content, reasoning, focus⟩) qr
        (Except.ok raw) (Except.ok v) (Except.ok loc) ui n).ui
  | continueNext (q2 : QuizQuestion) (ui : UIState) (n : Nat) :
      CompletedReachable ui →
      CompletedReachable (handleContentNext (Except.ok q2) ui n).ui

theorem completedReachable_inv (ui : UIState) (h : CompletedReachable ui) :
    exactlyOneActive ui = true ∧ ui.appState.session.isSome = true := by
  induction h with
  | start topic grade ctx q n =>
      constructor
      · simp [exactlyOneActive, handleStart, runAssessmentCycle_ok_question,
          runAssessmentCycle_ok_content, initialUI]
      · simp [handleStart, runAssessmentCycle_ok_session, logAgent, appReducer]
  | answerQuiz index reasoning focus q2 cr sr lr ui n h ih =>
      cases hq : ui.currentQuestion with
      | none => simpa [handleAnswer, hq] using ih
      | some cq =>
          cases hs : ui.appState.session with
          | none => simpa [handleAnswer, hq, hs] using ih
          | some sess =>
              have h1 := ih.1
              simp [exactlyOneActive, hq] at h1
              constructor
              · simp [handleAnswer, hq, hs, exactlyOneActive,
                  runAdaptationCycle_quiz_question,
                  runAdaptationCycle_quiz_content, h1]
              · simp [handleAnswer, hq, hs, runAdaptationCycle_session,
                  appReducer_recordAnswer_isSome, logAgent_session]
  | answerContent index reasoning focus qr raw v loc ui n h ih =>
      cases hq : ui.currentQuestion with
      | none => simpa [handleAnswer, hq] using ih
      | some cq =>
          cases hs : ui.appState.session with
          | none => simpa [handleAnswer, hq, hs] using ih
          | some sess =>
              constructor
              · simp [handleAnswer, hq, hs, exactlyOneActive,
                  runAdaptationCycle_content_question,
                  runAdaptationCycle_content_content]
              · simp [handleAnswer, hq, hs, runAdaptationCycle_session,
                  appReducer_recordAnswer_isSome, logAgent_session]
  | continueNext q2 ui n h ih =>
      cases hs : ui.appState.session with
      | none =>
          have h2 := ih.2
          rw [hs] at h2
          simp at h2
      | some sess =>
          constructor
          · simp [handleContentNext, hs, exactlyOneActive,
              runAssessmentCycle_ok_question, runAssessmentCycle_ok_content]
          · simp [handleContentNext, hs, runAssessmentCycle_ok_session]

/-- C1: for every mastery value m in [0,100] and every answer, the
mastery score after the reducer records the answer equals
min(100, m+20) when the chosen option index equals the
correctOptionIndex of the question and max(0, m-10) otherwise; in particular the
post-update mastery is never outside [0,100]. -/
theorem claim_C1_mastery_update (st : AppState) (s : LearningSession)
    (q : QuizQuestion) (index : Nat) (now : Nat)
    (hs : st.session = some s) (h0 : 0 ≤ s.masteryScore)
    (h1 : s.masteryScore ≤ 100) :
    ∃ s2, (appReducer st (Action.RECORD_ANSWER q
          (index == q.correctOptionIndex)) now).session = some s2 ∧
      s2.masteryScore = (if index = q.correctOptionIndex
          then min 100 (s.masteryScore + 20)
          else max 0 (s.masteryScore - 10)) ∧
      0 ≤ s2.masteryScore ∧ s2.masteryScore ≤ 100 := by
  simp only [appReducer, hs]
  refine ⟨_, rfl, ?_, ?_, ?_⟩
  · by_cases hc : index = q.correctOptionIndex <;> simp [hc]
  · by_cases hc : index = q.correctOptionIndex <;> simp [hc] <;> omega
  · by_cases hc : index = q.correctOptionIndex <;> simp [hc] <;> omega

/-- Witness for C1 at mastery 0 with a correct answer. -/
theorem claim_C1_witness :
    ∃ s2, (appReducer
          ⟨false, false, Step.assessing, [],
            some ⟨"Algebra", "PCTB: Class-IX", "9", 0, []⟩, false⟩
          (Action.RECORD_ANSWER (sampleQuiz 1 0)
            ((0 : Nat) == (sampleQuiz 1 0).correctOptionIndex)) 5).session
        = some s2 ∧
      s2.masteryScore = (if (0 : Nat) = (sampleQuiz 1 0).correctOptionIndex
          then min 100 ((0 : Int) + 20)
          else max 0 ((0 : Int) - 10)) ∧
      0 ≤ s2.masteryScore ∧ s2.masteryScore ≤ 100 :=
  claim_C1_mastery_update
    ⟨false, false, Step.assessing, [],
      some ⟨"Algebra", "PCTB: Class-IX", "9", 0, []⟩, false⟩
    ⟨"Algebra", "PCTB: Class-IX", "9", 0, []⟩
    (sampleQuiz 1 0) 0 5 rfl (by decide) (by decide)

/-- C4: the difficulty requested by generateAssessment is hard iff
mastery > 70, medium iff 40 < mastery ≤ 70, easy iff mastery ≤ 40; in
particular it is medium at exactly 70, easy at exactly 40, and easy at
mastery 0. -/
theorem claim_C4_difficulty_thresholds :
    (∀ m : Int,
      (assessmentDifficulty m = Difficulty.hard ↔ 70 < m) ∧
      (assessmentDifficulty m = Difficulty.medium ↔ 40 < m ∧ m ≤ 70) ∧
      (assessmentDifficulty m = Difficulty.easy ↔ m ≤ 40)) ∧
    assessmentDifficulty 70 = Difficulty.medium ∧
    assessmentDifficulty 40 = Difficulty.easy ∧
    assessmentDifficulty 0 = Difficulty.easy := by
  refine ⟨?_, by decide, by decide, by decide⟩
  intro m
  unfold assessmentDifficulty
  refine ⟨?_, ?_, ?_⟩ <;> split_ifs <;> simp_all <;> omega

/-- C6 counterexample: a parseable reply missing every required field
is accepted as-is by generateAssessment and adaptPath instead of
yielding a malformed-response failure. -/
theorem claim_C6_counterexample :
    generateAssessment "Algebra" "9" 0 none
        (ModelResponse.parsed (Json.obj [])) = Except.ok (Json.obj []) ∧
    quizShapeValid (Json.obj []) = false ∧
    adaptPath true 0 "Algebra" (ModelResponse.parsed (Json.obj []))
        = Except.ok (Json.obj []) ∧
    hasNextAction (Json.obj []) = false :=
  ⟨rfl, rfl, rfl, rfl⟩

/-- C6 amended: both operations fail with EmptyResponse on missing
text and with a parse exception on unparseable text, but perform no
output-shape validation: every parseable JSON value is returned as-is,
whatever fields, types, option counts or indices it carries. -/
theorem claim_C6_no_shape_validation :
    (∀ t g : String, ∀ m : Int, ∀ c : Option String,
      generateAssessment t g m c ModelResponse.noText
        = Except.error GatewayError.EmptyResponse) ∧
    (∀ t g : String, ∀ m : Int, ∀ c : Option String,
      generateAssessment t g m c ModelResponse.unparseable
        = Except.error GatewayError.ParseException) ∧
    (∀ t g : String, ∀ m : Int, ∀ c : Option String, ∀ j : Json,
      generateAssessment t g m c (ModelResponse.parsed j) = Except.ok j) ∧
    (∀ b : Bool, ∀ m : Int, ∀ t : String,
      adaptPath b m t ModelResponse.noText
        = Except.error GatewayError.EmptyResponse) ∧
    (∀ b : Bool, ∀ m : Int, ∀ t : String,
      adaptPath b m t ModelResponse.unparseable
        = Except.error GatewayError.ParseException) ∧
    (∀ b : Bool, ∀ m : Int, ∀ t : String, ∀ j : Json,
      adaptPath b m t (ModelResponse.parsed j) = Except.ok j) :=
  ⟨fun _ _ _ _ => rfl, fun _ _ _ _ => rfl, fun _ _ _ _ _ => rfl,
    fun _ _ _ => rfl, fun _ _ _ => rfl, fun _ _ _ _ => rfl⟩

/-- C8: on an empty service response, safetyCheck returns the fail-open
verdict with safe set to true instead of failing or flagging. -/
theorem claim_C8_fail_open (content : String) :
    safetyCheck content ModelResponse.noText
      = Except.ok (Json.obj [("safe", Json.bool true)]) := rfl

/-- Tests whether an action is one of the two session-modifying ones. -/
def modifiesSession : Action → Bool
  | Action.START_SESSION _ _ _ => true
  | Action.RECORD_ANSWER _ _ => true
  | _ => false

/-- C10: every reducer action other than START_SESSION and
RECORD_ANSWER leaves the session field - topic, course name, grade
level, mastery score, history - unchanged. -/
theorem claim_C10_session_frame (st : AppState) (a : Action) (now : Nat)
    (h : modifiesSession a = false) :
    (appReducer st a now).session = st.session := by
  cases a <;> simp_all [appReducer, modifiesSession]

/-- Witness for C10 on the bandwidth toggle. -/
theorem claim_C10_witness :
    (appReducer initialState Action.TOGGLE_BANDWIDTH 0).session
      = initialState.session :=
  claim_C10_session_frame initialState Action.TOGGLE_BANDWIDTH 0 rfl

/-- C9: at every observable point after a completed transition,
exactly one of the current quiz question and the current learning
material is non-null. -/
theorem claim_C9_exactly_one_active (ui : UIState)
    (h : CompletedReachable ui) : exactlyOneActive ui = true :=
  (completedReachable_inv ui h).1

/-- Witness for C9 after a completed session start. -/
theorem claim_C9_witness :
    exactlyOneActive (handleStart "Algebra" "9" "PCTB: Class-IX"
        (Except.ok (sampleQuiz 1 0)) initialUI 0).ui = true :=
  claim_C9_exactly_one_active _
    (CompletedReachable.start "Algebra" "9" "PCTB: Class-IX" (sampleQuiz 1 0) 0)

/-- Concrete assessing-state component used in failure runs: session
at mastery 20, one current question, empty trace log. -/
def uiAssessing : UIState :=
  ⟨⟨false, false, Step.assessing, [],
      some ⟨"Algebra", "PCTB: Class-IX", "9", 20, []⟩, false⟩,
    some (sampleQuiz 1 0), none⟩

/-- C5 counterexample: a gateway failure during the adaptation
decision aborts with the loading flag cleared and the session intact,
but appends zero System/Error trace entries, not exactly one. -/
theorem claim_C5_counterexample :
    (runAdaptationCycle true 20 "Algebra" "PCTB: Class-IX"
        uiAssessing.appState (Except.error GatewayError.TransportFailure)
        (Except.error GatewayError.TransportFailure)
        (Except.error GatewayError.TransportFailure)
        (Except.error GatewayError.TransportFailure)
        (Except.error GatewayError.TransportFailure)
        uiAssessing 0).ui.appState.session = uiAssessing.appState.session ∧
    (runAdaptationCycle true 20 "Algebra" "PCTB: Class-IX"
        uiAssessing.appState (Except.error GatewayError.TransportFailure)
        (Except.error GatewayError.TransportFailure)
        (Except.error GatewayError.TransportFailure)
        (Except.error GatewayError.TransportFailure)
        (Except.error GatewayError.TransportFailure)
        uiAssessing 0).ui.appState.isLoading = false ∧
    systemErrorCount (runAdaptationCycle true 20 "Algebra" "PCTB: Class-IX"
        uiAssessing.appState (Except.error GatewayError.TransportFailure)
        (Except.error GatewayError.TransportFailure)
        (Except.error GatewayError.TransportFailure)
        (Except.error GatewayError.TransportFailure)
        (Except.error GatewayError.TransportFailure)
        uiAssessing 0).ui.appState.logs ≠ 1 := by
  refine ⟨rfl, rfl, ?_⟩
  decide

/-- C5 amended: every gateway failure aborts its transition with the
loading flag cleared and the session unchanged; a quiz-generation
failure additionally appends exactly one System/Error trace entry,
while failures of the adaptation decision or of the curate, safety or
localize steps append no System/Error entry at all. -/
theorem claim_C5_failure_semantics :
    (∀ t g : String, ∀ m : Int, ∀ c : Option String, ∀ e : GatewayError,
      ∀ ui : UIState, ∀ n : Nat,
      (runAssessmentCycle t g m c (Except.error e) ui n).ui.appState.session
          = ui.appState.session ∧
      (runAssessmentCycle t g m c (Except.error e) ui n).ui.appState.isLoading
          = false ∧
      systemErrorCount
          (runAssessmentCycle t g m c (Except.error e) ui n).ui.appState.logs
          = systemErrorCount ui.appState.logs + 1) ∧
    (∀ lc : Bool, ∀ m : Int, ∀ t ctx : String, ∀ snap : AppState,
      ∀ e : GatewayError,
      ∀ qr : Except GatewayError QuizQuestion,
      ∀ cr : Except GatewayError LearningMaterial,
      ∀ sr : Except GatewayError SafetyVerdict,
      ∀ lr : Except GatewayError LearningMaterial,
      ∀ ui : UIState, ∀ n : Nat,
      (runAdaptationCycle lc m t ctx snap (Except.error e) qr cr sr lr
          ui n).ui.appState.session = ui.appState.session ∧
      (runAdaptationCycle lc m t ctx snap (Except.error e) qr cr sr lr
          ui n).ui.appState.isLoading = false ∧
      systemErrorCount (runAdaptationCycle lc m t ctx snap (Except.error e)
          qr cr sr lr ui n).ui.appState.logs
          = systemErrorCount ui.appState.logs) ∧
    (∀ t g f ctx : String, ∀ e : GatewayError,
      ∀ sr : Except GatewayError SafetyVerdict,
      ∀ lr : Except GatewayError LearningMaterial,
      ∀ ui : UIState, ∀ n : Nat,
      (runContentCycle t g f ctx (Except.error e) sr lr ui n).ui.appState.session
          = ui.appState.session ∧
      (runContentCycle t g f ctx (Except.error e) sr lr ui n).ui.appState.isLoading
          = false ∧
      systemErrorCount
          (runContentCycle t g f ctx (Except.error e) sr lr ui n).ui.appState.logs
          = systemErrorCount ui.appState.logs) ∧
    (∀ t g f ctx : String, ∀ raw : LearningMaterial, ∀ e : GatewayError,
      ∀ lr : Except GatewayError LearningMaterial,
      ∀ ui : UIState, ∀ n : Nat,
      (runContentCycle t g f ctx (Except.ok raw) (Except.error e) lr
          ui n).ui.appState.session = ui.appState.session ∧
      (runContentCycle t g f ctx (Except.ok raw) (Except.error e) lr
          ui n).ui.appState.isLoading = false ∧
      systemErrorCount (runContentCycle t g f ctx (Except.ok raw)
          (Except.error e) lr ui n).ui.appState.logs
          = systemErrorCount ui.appState.logs) ∧
    (∀ t g f ctx : String, ∀ raw : LearningMaterial, ∀ v : SafetyVerdict,
      ∀ e : GatewayError, ∀ ui : UIState, ∀ n : Nat,
      (runContentCycle t g f ctx (Except.ok raw) (Except.ok v)
          (Except.error e) ui n).ui.appState.session = ui.appState.session ∧
      (runContentCycle t g f ctx (Except.ok raw) (Except.ok v)
          (Except.error e) ui n).ui.appState.isLoading = false ∧
      systemErrorCount (runContentCycle t g f ctx (Except.ok raw)
          (Except.ok v) (Except.error e) ui n).ui.appState.logs
          = systemErrorCount ui.appState.logs) := by
  refine ⟨?_, ?_, ?_, ?_, ?_⟩
  · intro t g m c e ui n
    exact ⟨runAssessmentCycle_error_session t g m c e ui n,
      runAssessmentCycle_error_loading t g m c e ui n,
      runAssessmentCycle_error_errorCount t g m c e ui n⟩
  · intro lc m t ctx snap e qr cr sr lr ui n
    refine ⟨?_, ?_, ?_⟩ <;>
      simp [runAdaptationCycle, logAgent, appReducer, systemErrorCount,
        isSystemError, List.filter_append]
  · intro t g f ctx e sr lr ui n
    refine ⟨?_, ?_, ?_⟩ <;>
      simp [runContentCycle, logAgent, appReducer, systemErrorCount,
        isSystemError, List.filter_append]
  · intro t g f ctx raw e lr ui n
    refine ⟨?_, ?_, ?_⟩ <;>
      simp [runContentCycle, logAgent, appReducer, systemErrorCount,
        isSystemError, List.filter_append]
  · intro t g f ctx raw v e ui n
    refine ⟨?_, ?_, ?_⟩ <;> by_cases hs : v.safe <;>
      simp [runContentCycle, logAgent, appReducer, systemErrorCount,
        isSystemError, List.filter_append, hs]

/-- C7 counterexample: with an unsafe safety verdict the content cycle
appends no warning-status trace entry at all - the Blocked entry it
appends carries success status - while the localized material is still
displayed. -/
theorem claim_C7_counterexample :
    ((runContentCycle "Algebra" "9" "basics" "PCTB: Class-IX"
        (Except.ok (sampleMaterial "Raw"))
        (Except.ok ⟨false, some "off-topic"⟩)
        (Except.ok (sampleMaterial "Loc"))
        uiAssessing 0).ui.appState.logs.filter isWarningLog) = [] ∧
    ((runContentCycle "Algebra" "9" "basics" "PCTB: Class-IX"
        (Except.ok (sampleMaterial "Raw"))
        (Except.ok ⟨false, some "off-topic"⟩)
        (Except.ok (sampleMaterial "Loc"))
        uiAssessing 0).ui.appState.logs.filter isBlockedSuccess).length = 1 ∧
    (runContentCycle "Algebra" "9" "basics" "PCTB: Class-IX"
        (Except.ok (sampleMaterial "Raw"))
        (Except.ok ⟨false, some "off-topic"⟩)
        (Except.ok (sampleMaterial "Loc"))
        uiAssessing 0).ui.currentContent = some (sampleMaterial "Loc") := by
  refine ⟨?_, ?_, rfl⟩ <;> decide

/-- C7 amended: when the safety check returns an unsafe verdict the
flow still calls localizeMaterial and displays the localized material,
and it appends one Safety/Blocked trace entry - carrying success
status, since the logger hardcodes success, so no warning-status entry
is appended. -/
theorem claim_C7_unsafe_proceeds (topic grade focus ctx : String)
    (raw loc : LearningMaterial) (reason : Option String)
    (ui : UIState) (n : Nat) :
    (runContentCycle topic grade focus ctx (Except.ok raw)
        (Except.ok ⟨false, reason⟩) (Except.ok loc) ui n).ui.currentContent
        = some loc ∧
    GatewayCall.localize raw LanguageMode.urdu_mix ∈
        (runContentCycle topic grade focus ctx (Except.ok raw)
          (Except.ok ⟨false, reason⟩) (Except.ok loc) ui n).calls ∧
    ((runContentCycle topic grade focus ctx (Except.ok raw)
        (Except.ok ⟨false, reason⟩) (Except.ok loc) ui n).ui.appState.logs.filter
          isBlockedSuccess).length
        = (ui.appState.logs.filter isBlockedSuccess).length + 1 ∧
    (runContentCycle topic grade focus ctx (Except.ok raw)
        (Except.ok ⟨false, reason⟩) (Except.ok loc) ui n).ui.appState.logs.filter
          isWarningLog
        = ui.appState.logs.filter isWarningLog := by
  refine ⟨runContentCycle_success_content _ _ _ _ _ _ _ _ _, ?_, ?_, ?_⟩ <;>
    simp [runContentCycle, logAgent, appReducer, isBlockedSuccess, isWarningLog,
      List.filter_append]

/-- Adaptation plan deciding on a content detour. -/
def planContent : AdaptPlan := ⟨NextAction.content, "needs material", "basics"⟩

/-- Adaptation plan deciding on another quiz. -/
def planQuiz : AdaptPlan := ⟨NextAction.quiz, "push harder", "next step"⟩

/-- Scenario run, step 1: completed session start on Algebra. -/
def scenarioStart : FlowResult :=
  handleStart "Algebra" "9" "PCTB: Class-IX" (Except.ok (sampleQuiz 1 0))
    initialUI 0

/-- Scenario run, step 2: first quiz attempt (correct), adaptation
decides content, and the content cycle completes - one content
exposure.  The quiz outcome is irrelevant on this branch. -/
def scenarioContent : FlowResult :=
  handleAnswer 0 (Except.ok planContent)
    (Except.error GatewayError.TransportFailure)
    (Except.ok (sampleMaterial "Raw")) (Except.ok ⟨true, none⟩)
    (Except.ok (sampleMaterial "Loc"))
    scenarioStart.ui scenarioStart.counter

/-- Scenario run, step 3: continue from the material to a fresh quiz. -/
def scenarioNext : FlowResult :=
  handleContentNext (Except.ok (sampleQuiz 2 1))
    scenarioContent.ui scenarioContent.counter

/-- Scenario run, step 4: second quiz attempt (incorrect), adaptation
decides quiz; the unused content-branch outcomes are irrelevant. -/
def scenarioEnd : FlowResult :=
  handleAnswer 0 (Except.ok planQuiz) (Except.ok (sampleQuiz 3 0))
    (Except.error GatewayError.TransportFailure)
    (Except.error GatewayError.TransportFailure)
    (Except.error GatewayError.TransportFailure)
    scenarioNext.ui scenarioNext.counter

/-- C2: a session that underwent two quiz attempts and one completed
content exposure exports a pack whose reviewQuizzes has length 2 but
whose materials is empty - the content cycle never appends a content
history entry, so the materials field of the pack, the filter of
content-typed history entries, has length 0 rather than 1. -/
theorem claim_C2_materials_empty :
    scenarioContent.ui.currentContent = some (sampleMaterial "Loc") ∧
    (downloadPack scenarioEnd.ui.appState "2026-10-11").map
        (fun p => (p.reviewQuizzes.length, p.materials.length))
      = some (2, 0) := by
  refine ⟨rfl, ?_⟩
  decide

/-- Concrete assessing-state component at mastery 60 used for C3. -/
def uiMastery60 : UIState :=
  ⟨⟨false, false, Step.assessing, [],
      some ⟨"Algebra", "PCTB: Class-IX", "9", 60, []⟩, false⟩,
    some (sampleQuiz 9 0), none⟩

/-- Run of handleAnswer from mastery 60 with a correct answer whose
adaptation decision is quiz. -/
def staleMasteryRun : FlowResult :=
  handleAnswer 0 (Except.ok planQuiz) (Except.ok (sampleQuiz 10 0))
    (Except.error GatewayError.TransportFailure)
    (Except.error GatewayError.TransportFailure)
    (Except.error GatewayError.TransportFailure)
    uiMastery60 0

/-- C3: after a correct answer at mastery 60 the recorded session
mastery is 80, yet both the adaptation decision call and the next
question generation receive the pre-dispatch snapshot value 60 - the
dispatch does not update the closure-captured state - so the requested
difficulty is derived from 60 (medium) instead of the post-update 80
(hard). -/
theorem claim_C3_stale_mastery :
    staleMasteryRun.ui.appState.session.map (fun s => s.masteryScore)
        = some 80 ∧
    GatewayCall.adapt true 60 "Algebra" ∈ staleMasteryRun.calls ∧
    GatewayCall.genQuiz "Algebra" "9" 60 (some "PCTB: Class-IX")
        ∈ staleMasteryRun.calls ∧
    (¬ GatewayCall.adapt true 80 "Algebra" ∈ staleMasteryRun.calls) ∧
    (¬ GatewayCall.genQuiz "Algebra" "9" 80 (some "PCTB: Class-IX")
        ∈ staleMasteryRun.calls) ∧
    assessmentDifficulty 60 = Difficulty.medium ∧
    assessmentDifficulty 80 = Difficulty.hard := by
  decide

end SLC

